import Mathlib

/-!
Shallow embedding of the telegram-pbp-reminder activity engine
(`scripts/helpers.py`, `scripts/checker.py`) and proofs about it.

Conventions:
* timestamps are rational numbers of seconds (Python `datetime` values are
  modelled by their POSIX timeline position; all datetimes in the source are
  timezone-aware UTC, so subtraction / `.date()` are plain arithmetic);
* Python dicts are association lists in insertion order;
* the Telegram boundary (`tg.send_message`, ...) is modelled by explicit
  send-result oracles and by returning the list of emitted boundary actions;
* Python `float` arithmetic, where a claim depends on it, is modelled by
  `floatRound`, round-to-nearest-even binary64 rounding on exact rationals.
-/

namespace PBP

/-! ## Binary64 model (for `helpers.trend_icon`) -/

/-- `2 ^ e` over ℚ for an integer exponent. -/
def pow2 (e : ℤ) : ℚ := (2 : ℚ) ^ e

/-- Fuel-bounded: for `1 ≤ q`, the largest `k` with `2 ^ k ≤ q`. -/
def ilogAuxUp : ℕ → ℚ → ℕ
  | 0, _ => 0
  | fuel + 1, q => if q < 2 then 0 else ilogAuxUp fuel (q / 2) + 1

/-- Fuel-bounded: for `0 < q < 1`, the least `k` with `1 ≤ q * 2 ^ k`. -/
def ilogAuxDown : ℕ → ℚ → ℕ
  | 0, _ => 0
  | fuel + 1, q => if 1 ≤ q then 0 else ilogAuxDown fuel (2 * q) + 1

/-- `⌊log₂ q⌋` for positive rationals (fuel-bounded; fuel 80 covers every
magnitude in `(2 ^ (-80), 2 ^ 80)`, far beyond any value a claim touches). -/
def ilog2 (q : ℚ) : ℤ :=
  if 1 ≤ q then (ilogAuxUp 80 q : ℤ) else -(ilogAuxDown 80 q : ℤ)

/-- Round a rational in `[2^52, 2^53)` to the nearest integer, ties to even
(the fractional part `m - ⌊m⌋` is compared with `1/2` via `2*m` vs `2*⌊m⌋+1`). -/
def rne (m : ℚ) : ℤ :=
  if 2 * m < 2 * (⌊m⌋ : ℚ) + 1 then ⌊m⌋
  else if 2 * (⌊m⌋ : ℚ) + 1 < 2 * m then ⌊m⌋ + 1
  else if ⌊m⌋ % 2 = 0 then ⌊m⌋ else ⌊m⌋ + 1

/-- Round-to-nearest-even binary64 rounding of an exact rational
(model of the rounding Python `float` arithmetic performs; subnormals and
overflow are outside the range any claim touches). -/
def floatRound (q : ℚ) : ℚ :=
  if q = 0 then 0
  else if q < 0 then -((rne (-q * pow2 (52 - ilog2 (-q))) : ℚ) * pow2 (ilog2 (-q) - 52))
  else (rne (q * pow2 (52 - ilog2 q)) : ℚ) * pow2 (ilog2 q - 52)

/-! ## `helpers.py` pure functions -/

/-- `helpers.POST_SESSION_MINUTES` (default, in minutes). -/
def POST_SESSION_MINUTES : ℚ := 10

inductive Trend where
  | noData   -- "💤"
  | new      -- "🆕"
  | up       -- "📈"
  | down     -- "📉"
  | steady   -- "➡️"
deriving DecidableEq, Repr

/-- The binary64 value of Python `previous * 1.15`: the literal `1.15` is
already rounded, `previous` is converted to float, the product is rounded. -/
def upThreshold (previous : ℕ) : ℚ :=
  floatRound (floatRound (previous : ℚ) * floatRound (115 / 100))

/-- The binary64 value of Python `previous * 0.85`. -/
def downThreshold (previous : ℕ) : ℚ :=
  floatRound (floatRound (previous : ℚ) * floatRound (85 / 100))

/-- `helpers.trend_icon(recent, previous)`.  The Python comparisons
`recent > previous * 1.15` / `recent < previous * 0.85` happen in binary64
(the int/float comparison itself is exact). -/
def trend_icon (recent previous : ℕ) : Trend :=
  if previous = 0 ∧ recent = 0 then .noData
  else if previous = 0 then .new
  else if (recent : ℚ) > upThreshold previous then .up
  else if (recent : ℚ) < downThreshold previous then .down
  else .steady

/-- Loop of `helpers.deduplicate_posts`: keep `ts` whenever it is more than
`POST_SESSION_MINUTES * 60` seconds after the last kept session anchor. -/
def dedupAux (last : ℚ) : List ℚ → List ℚ
  | [] => []
  | ts :: rest =>
      if ts - last > POST_SESSION_MINUTES * 60 then ts :: dedupAux ts rest
      else dedupAux last rest

/-- `helpers.deduplicate_posts(timestamps)`: sort ascending, then collapse
bursts within the session window to their first timestamp. -/
def deduplicate_posts (timestamps : List ℚ) : List ℚ :=
  match List.insertionSort (· ≤ ·) timestamps with
  | [] => []
  | h :: t => h :: dedupAux h t

/-- `helpers.avg_gap_hours(sorted_times)`: `none` below 2 entries, otherwise
the mean of consecutive deltas in hours. -/
def avg_gap_hours (sorted_times : List ℚ) : Option ℚ :=
  if sorted_times.length < 2 then none
  else
    let gaps := List.zipWith (fun prev cur => (cur - prev) / 3600) sorted_times sorted_times.tail
    some (gaps.sum / gaps.length)

/-! ## `checker._calc_streak` -/

/-- Python `datetime.date()` on the UTC timeline: calendar day number. -/
def pydate (t : ℚ) : ℤ := ⌊t / 86400⌋

/-- Collapse adjacent duplicates of a sorted list (model of Python's
`sorted({...})`, a sorted list of the distinct elements). -/
def uniqSorted : List ℤ → List ℤ
  | [] => []
  | [a] => [a]
  | a :: b :: t => if a = b then uniqSorted (b :: t) else a :: uniqSorted (b :: t)

/-- The backward walk of `_calc_streak` over the reversed date list: +1 per
gap of exactly one day, skip a zero gap, stop at anything larger. -/
def streakLoop : List ℤ → ℕ
  | a :: b :: t =>
      if a - b = 1 then 1 + streakLoop (b :: t)
      else if a - b = 0 then streakLoop (b :: t)
      else 0
  | _ => 0

/-- `checker._calc_streak(raw_timestamps, now)`: consecutive calendar days
with at least one post, counted backward from the most recent post date;
0 when the most recent post date is before yesterday. -/
def _calc_streak (raw : List ℚ) (now : ℚ) : ℕ :=
  if raw = [] then 0
  else
    let post_dates := uniqSorted (List.insertionSort (· ≤ ·) (raw.map pydate))
    let today := pydate now
    if post_dates.getLastD 0 < today - 1 then 0
    else 1 + streakLoop post_dates.reverse

/-! ## Python dict model (association lists in insertion order) -/

/-- `d.get(k)` / `d[k]`. -/
def alookup {α : Type} : List (String × α) → String → Option α
  | [], _ => none
  | (k', v) :: rest, k => if k' = k then some v else alookup rest k

/-- `d[k] = v`: replace in place, or append a new entry. -/
def aupsert {α : Type} : List (String × α) → String → α → List (String × α)
  | [], k, v => [(k, v)]
  | (k', v') :: rest, k, v =>
      if k' = k then (k, v) :: rest else (k', v') :: aupsert rest k v

/-- `del d[k]` (keys of a dict are unique, so removing every binding of `k`
is the same operation). -/
def aerase {α : Type} (m : List (String × α)) (k : String) : List (String × α) :=
  m.filter (fun p => p.1 ≠ k)

/-! ## String helpers (structural versions of the Python string methods) -/

/-- Token accumulator for `str.split()` (split on whitespace runs). -/
def splitWsAux : List Char → List Char → List (List Char)
  | [], acc => if acc = [] then [] else [acc.reverse]
  | c :: cs, acc =>
      if c.isWhitespace then
        if acc = [] then splitWsAux cs [] else acc.reverse :: splitWsAux cs []
      else splitWsAux cs (c :: acc)

/-- Python `text.split()`: whitespace-delimited tokens, empties dropped. -/
def pySplit (s : String) : List String := (splitWsAux s.toList []).map String.mk

/-- Helper for `strStarts`. -/
def isPre : List Char → List Char → Bool
  | [], _ => true
  | _ :: _, [] => false
  | c :: cs, d :: ds => c = d && isPre cs ds

/-- Python `s.startswith(pre)`. -/
def strStarts (s pre : String) : Bool := isPre pre.toList s.toList

/-- Digit-string accumulator for `int(...)`. -/
def digitsToNatAux : List Char → ℕ → Option ℕ
  | [], acc => some acc
  | c :: cs, acc =>
      if c.isDigit then digitsToNatAux cs (acc * 10 + (c.toNat - 48)) else none

/-- Python `int(token)` on a whitespace-free token: optional sign then digits
(the exotic forms CPython also accepts, like underscores, never occur here). -/
def pyToInt (s : String) : Option ℤ :=
  match s.toList with
  | [] => none
  | '-' :: cs => if cs = [] then none else (digitsToNatAux cs 0).map (fun n => -(n : ℤ))
  | '+' :: cs => if cs = [] then none else (digitsToNatAux cs 0).map (fun n => (n : ℤ))
  | cs => (digitsToNatAux cs 0).map (fun n => (n : ℤ))

/-- Python `s.lower()`. -/
def pyLower (s : String) : String := String.mk (s.toList.map Char.toLower)

/-- Accumulator for `str.split(":")` (single-char separator, empties kept). -/
def splitChAux : List Char → List Char → List (List Char)
  | [], acc => [acc.reverse]
  | c :: cs, acc =>
      if c = ':' then acc.reverse :: splitChAux cs [] else splitChAux cs (c :: acc)

/-- Python `s.split(":")`. -/
def pySplitColon (s : String) : List String := (splitChAux s.toList []).map String.mk

/-- A char of `helpers.html_escape` output (`&`, `<`, `>` escaped). -/
def escChar (c : Char) : List Char :=
  if c = '&' then "&amp;".toList
  else if c = '<' then "&lt;".toList
  else if c = '>' then "&gt;".toList
  else [c]

/-- `helpers.html_escape(text)` (the sequential replaces touch disjoint chars,
so a single char-wise pass is the same function). -/
def html_escape (s : String) : String := String.mk ((s.toList.map escChar).flatten)

/-! ## Time helpers and tunables -/

/-- Modelled from the spec: elapsed time between two UTC datetimes in hours
(`helpers.hours_since` is absent from the provided sources; its tests pin
`hours_since(now, then) = (now - then) in hours`). -/
def hours_since (now t0 : ℚ) : ℚ := (now - t0) / 3600

/-- Modelled from the spec: elapsed time in days (`helpers.days_since` is
absent from the provided sources; its tests pin the value). -/
def days_since (now t0 : ℚ) : ℚ := (now - t0) / 86400

/-- Python `int()` on a float/rational: truncation toward zero. -/
def pyInt (q : ℚ) : ℤ := if 0 ≤ q then ⌊q⌋ else -⌊-q⌋

/-- `helpers.interval_elapsed(last_iso, interval_days, now)`. -/
def interval_elapsed (last : Option ℚ) (interval_days : ℚ) (now : ℚ) : Prop :=
  match last with
  | none => True
  | some l => (now - l) / 86400 ≥ interval_days

instance (last : Option ℚ) (d now : ℚ) : Decidable (interval_elapsed last d now) := by
  unfold interval_elapsed
  cases last <;> infer_instance

/-- `helpers.PLAYER_WARN_WEEKS` (defaults). -/
def PLAYER_WARN_WEEKS : List ℕ := [1, 2, 3]

/-- `helpers.PLAYER_REMOVE_WEEKS` (default). -/
def PLAYER_REMOVE_WEEKS : ℕ := 4

/-- `helpers.COMBAT_PING_HOURS` (default). -/
def COMBAT_PING_HOURS : ℚ := 4

/-! ## Data model -/

/-- A `state["players"]` record. -/
structure Player where
  user_id : String
  first_name : String
  last_name : String
  username : String
  campaign_name : String
  pbp_topic_id : String
  last_post_time : ℚ
  last_warned_week : ℕ
deriving Repr, DecidableEq

/-- A `state["removed_players"]` record. -/
structure RemovedPlayer where
  removed_at : ℚ
  first_name : String
  username : String
  campaign_name : String
deriving Repr, DecidableEq

/-- A `state["topics"]` record. -/
structure TopicState where
  last_message_time : ℚ
  last_user : String
  last_user_id : String
  campaign_name : String
deriving Repr, DecidableEq

/-- A `state["combat"]` record. -/
structure Combat where
  active : Bool
  campaign_name : String
  round : ℤ
  current_phase : String
  phase_started_at : ℚ
  players_acted : List String
  last_ping_at : Option ℚ
deriving Repr, DecidableEq

/-- A `state["pending_potw_boons"]` record. -/
structure PendingBoon where
  message_id : ℤ
  winner_user_id : String
  boons : List String
  base_message : String
  posted_at : ℚ
deriving Repr, DecidableEq

/-- The composite player key `f"{pid}:{user_id}"`. -/
def player_key (pid uid : String) : String := pid ++ ":" ++ uid

/-- Modelled from the spec: a player's display identity
(`helpers.player_mention` is absent from the provided sources; only the
identity of the mentioned player matters here, not its formatting). -/
def player_mention (p : Player) : String := p.first_name

/-- `helpers.players_by_campaign(state)[pid]`: the active players whose
canonical topic id is `pid` (grouping then indexing = filtering). -/
def players_by_campaign (players : List (String × Player)) (pid : String) : List Player :=
  (players.filter (fun kp => kp.2.pbp_topic_id = pid)).map Prod.snd

/-! ## `checker.process_updates`: player tracking slice (C9) -/

/-- The `players` / `removed_players` slice of the bot state. -/
structure PlayersState where
  players : List (String × Player)
  removed_players : List (String × RemovedPlayer)
deriving Repr, DecidableEq

/-- The player-level tracking block of `checker.process_updates` for one
message: for a non-GM, non-empty sender id, overwrite the player record
(with `last_warned_week = 0`) and drop the key from `removed_players`. -/
def track_player (st : PlayersState) (pid uid user_name last_name username
    campaign_name : String) (msg_time : ℚ) (gm_ids : List String) : PlayersState :=
  if uid ≠ "" ∧ uid ∉ gm_ids then
    let key := player_key pid uid
    { players := aupsert st.players key
        ⟨uid, user_name, last_name, username, campaign_name, pid, msg_time, 0⟩,
      removed_players := aerase st.removed_players key }
  else st

/-! ## Combat state machine (C3, C4) -/

/-- Messages the combat handlers emit (text abstracted to its template
identity; `tg.send_message` results are ignored by these handlers). -/
inductive CombatMsg where
  | announce (round : ℤ) (phase : String)
  | ended (campaign : String)
deriving Repr, DecidableEq

/-- The parse/validate part of `checker._handle_round_command`
(`/round <N> <players|enemies>`): `none` on any early return. -/
def parseRound (text : String) : Option (ℤ × String) :=
  let parts := pySplit text
  if parts.length < 3 then none
  else
    match pyToInt ((parts.get? 1).getD "") with
    | none => none
    | some round_num =>
        let phase := pyLower ((parts.get? 2).getD "")
        if round_num = 0 ∨ (phase ≠ "players" ∧ phase ≠ "enemies") then none
        else some (round_num, phase)

/-- `checker._handle_round_command`: seed a new combat, or advance an
existing one, clearing `players_acted` exactly when entering the players
phase from a different phase or round. -/
def _handle_round_command (text pid campaign_name : String) (now : ℚ)
    (combat : List (String × Combat)) : List (String × Combat) × List CombatMsg :=
  match parseRound text with
  | none => (combat, [])
  | some (round_num, phase) =>
      match alookup combat pid with
      | none =>
          (aupsert combat pid
            ⟨true, campaign_name, round_num, phase, now, [], none⟩,
           [.announce round_num phase])
      | some c =>
          let acted' :=
            if phase = "players" ∧ (c.current_phase ≠ "players" ∨ c.round ≠ round_num)
            then [] else c.players_acted
          (aupsert combat pid
            ⟨c.active, c.campaign_name, round_num, phase, now, acted', none⟩,
           [.announce round_num phase])

/-- `checker._handle_combat_message`: GM `/round` and `/endcombat` commands,
then idempotent tracking of a player action during the players phase. -/
def _handle_combat_message (text user_id : String) (gm_ids : List String)
    (pid campaign_name : String) (now : ℚ)
    (combat : List (String × Combat)) : List (String × Combat) × List CombatMsg :=
  let step1 : List (String × Combat) × List CombatMsg :=
    if user_id ∈ gm_ids then
      if strStarts text "/round" then
        _handle_round_command text pid campaign_name now combat
      else if strStarts text "/endcombat" ∨ text = "/combat end" then
        match alookup combat pid with
        | some _ => (aerase combat pid, [.ended campaign_name])
        | none => (combat, [])
      else (combat, [])
    else (combat, [])
  match alookup step1.1 pid with
  | some c =>
      if c.active ∧ c.current_phase = "players" ∧ user_id ∉ gm_ids
          ∧ user_id ∉ c.players_acted then
        (aupsert step1.1 pid { c with players_acted := c.players_acted ++ [user_id] },
         step1.2)
      else step1
  | none => step1

/-- A combat-ping send (text abstracted to its parameters). -/
inductive PingMsg where
  | ping (thread : ℤ) (round : ℤ) (missing : List String)
deriving Repr, DecidableEq

/-- "A previous send is recorded and it happened within `threshold` hours":
the re-send gate shared by `check_and_alert` and `check_combat_turns`. -/
def recentSend (last : Option ℚ) (now threshold : ℚ) : Prop :=
  match last with
  | none => False
  | some l => hours_since now l < threshold

instance (last : Option ℚ) (now threshold : ℚ) :
    Decidable (recentSend last now threshold) := by
  unfold recentSend
  cases last <;> infer_instance

/-- The body of the `check_combat_turns` loop for one campaign `pid`:
`featureOn` is `helpers.feature_enabled(config, pid, "combat")`,
`campaignPlayers` is `players_by_campaign(state)[pid]`, `chatTopic` is
`maps.to_chat.get(pid)`, and `sendOk` the boundary's send result. -/
def check_combat_turns_body (featureOn : Bool) (campaignPlayers : List Player)
    (chatTopic : Option ℤ) (now : ℚ) (sendOk : Bool) (c : Combat) :
    Combat × List PingMsg :=
  if ¬ c.active then (c, [])
  else if ¬ featureOn then (c, [])
  else if c.current_phase ≠ "players" then (c, [])
  else if hours_since now c.phase_started_at < COMBAT_PING_HOURS then (c, [])
  else if recentSend c.last_ping_at now COMBAT_PING_HOURS then (c, [])
  else
    let missing := (campaignPlayers.filter
      (fun p => p.user_id ∉ c.players_acted)).map player_mention
    if missing = [] then (c, [])
    else
      match chatTopic with
      | none => (c, [])
      | some thread =>
          if sendOk then
            ({ c with last_ping_at := some now }, [.ping thread c.round missing])
          else (c, [.ping thread c.round missing])

/-! ## `check_player_activity` (C2) -/

/-- A warning-ladder send (text abstracted to its template identity). -/
inductive WarnMsg where
  | warn (playerKey : String) (week : ℕ)
  | removalNotice (playerKey : String)
deriving Repr, DecidableEq

/-- The `for week_mark in PLAYER_WARN_WEEKS: ... break` loop: the first
threshold that is crossed and not yet warned. -/
def findWarnWeek (current_week : ℤ) (last_warned : ℕ) : List ℕ → Option ℕ
  | [] => none
  | w :: ws =>
      if current_week ≥ (w : ℤ) ∧ last_warned < w then some w
      else findWarnWeek current_week last_warned ws

/-- The body of the `check_player_activity` loop for one player: returns the
updated record, the sends, and whether the player is slated for removal.
`featureOn` is the "warnings" toggle, `paused` the paused-campaign flag,
`chatTopic` is `maps.to_chat.get(pbp_topic_id)`, `sendOk` the boundary's
result for this player's warning (the removal send result is not checked by
the source). -/
def check_player_activity_step (featureOn paused : Bool) (chatTopic : Option ℤ)
    (now : ℚ) (sendOk : Bool) (key : String) (p : Player) :
    Player × List WarnMsg × Bool :=
  match chatTopic with
  | none => (p, [], false)
  | some _ =>
      if ¬ featureOn then (p, [], false)
      else if paused then (p, [], false)
      else
        let elapsed_days := days_since now p.last_post_time
        let current_week := pyInt (elapsed_days / 7)
        let last_warned := p.last_warned_week
        if current_week ≥ (PLAYER_REMOVE_WEEKS : ℤ) then
          if last_warned < PLAYER_REMOVE_WEEKS then
            (p, [.removalNotice key], true)
          else (p, [], false)
        else
          match findWarnWeek current_week last_warned PLAYER_WARN_WEEKS with
          | some w =>
              if sendOk then ({ p with last_warned_week := w }, [.warn key w], false)
              else (p, [.warn key w], false)
          | none => (p, [], false)

/-! ## `check_and_alert` and `check_pace_drop` (C1) -/

/-- A 4-hour inactivity alert for one campaign. -/
inductive AlertMsg where
  | alert (pid : String)
deriving Repr, DecidableEq

/-- The body of the `check_and_alert` loop for one campaign `pid`: takes the
campaign's topic row and its `last_alerts` entry, returns the new
`last_alerts` entry and the sends.  The debounce entry is set to `now` only
when `tg.send_message` reports success. -/
def check_and_alert_step (featureOn paused : Bool) (alert_hours : ℚ) (now : ℚ)
    (sendOk : Bool) (pid : String) (topic : Option TopicState)
    (last_alert : Option ℚ) : Option ℚ × List AlertMsg :=
  if ¬ featureOn then (last_alert, [])
  else if paused then (last_alert, [])
  else
    match topic with
    | none => (last_alert, [])
    | some ts =>
        if hours_since now ts.last_message_time < alert_hours then (last_alert, [])
        else if recentSend last_alert now alert_hours then (last_alert, [])
        else if sendOk then (some now, [.alert pid])
        else (last_alert, [.alert pid])

/-- A pace-drop nudge for one campaign. -/
inductive PaceMsg where
  | paceDrop (pid : String) (lastWeek thisWeek : ℕ)
deriving Repr, DecidableEq

/-- The four counts of `helpers.pace_split`. -/
structure PaceCounts where
  gm_this : ℕ
  gm_last : ℕ
  player_this : ℕ
  player_last : ℕ
deriving Repr, DecidableEq

/-- Membership of the half-open window `[after, before)`. -/
def inWindow (after : ℚ) (before : Option ℚ) (t : ℚ) : Prop :=
  after ≤ t ∧ (match before with | none => True | some b => t < b)

instance (a : ℚ) (b : Option ℚ) (t : ℚ) : Decidable (inWindow a b t) := by
  unfold inWindow
  cases b <;> exact instDecidableAnd

/-- Count of a user's sessions within `[after, before)`. -/
def sessionsIn (ts : List ℚ) (after : ℚ) (before : Option ℚ) : ℕ :=
  ((deduplicate_posts ts).filter (fun t => decide (inWindow after before t))).length

/-- Modelled from the spec: `helpers.pace_split` (absent from the provided
sources) partitions a campaign's sessions into this-week/last-week × GM/player
and returns the four counts; its tests pin the week windows. -/
def pace_split (topic_ts : List (String × List ℚ)) (gm_ids : List String)
    (now : ℚ) : PaceCounts :=
  let week_ago := now - 7 * 86400
  let two_weeks_ago := now - 14 * 86400
  topic_ts.foldl (fun acc kv =>
    let this_w := sessionsIn kv.2 week_ago none
    let last_w := sessionsIn kv.2 two_weeks_ago (some week_ago)
    if kv.1 ∈ gm_ids then
      { acc with gm_this := acc.gm_this + this_w, gm_last := acc.gm_last + last_w }
    else
      { acc with player_this := acc.player_this + this_w,
                 player_last := acc.player_last + last_w })
    ⟨0, 0, 0, 0⟩

/-- The per-campaign body of the `check_pace_drop` loop: the sends only
(no per-campaign state is touched; the send result is not inspected). -/
def check_pace_drop_body (featureOn : Bool) (topic_ts : List (String × List ℚ))
    (gm_ids : List String) (now : ℚ) (pid : String) : List PaceMsg :=
  if ¬ featureOn then []
  else if topic_ts = [] then []
  else
    let pace := pace_split topic_ts gm_ids now
    let this_week := pace.gm_this + pace.player_this
    let last_week := pace.gm_last + pace.player_last
    if last_week < 5 then []
    else
      let drop_pct : ℚ :=
        if this_week = 0 ∧ last_week > 0 then 100
        else (((last_week : ℚ) - this_week) / last_week) * 100
      if drop_pct > 40 then [.paceDrop pid last_week this_week] else []

/-- `checker.check_pace_drop`: gated weekly by `interval_elapsed`; loops the
campaigns emitting nudges; then writes `state["last_pace_drop_check"] = now`
unconditionally — whether or not a send happened or succeeded.
`campaigns` is `maps.to_chat` (pid order), `featureOn` the per-campaign
"smart_alerts" toggle, `post_ts` the `post_timestamps` slice, `gm_ids` the
per-campaign GM set. -/
def check_pace_drop (campaigns : List String) (featureOn : String → Bool)
    (post_ts : List (String × List (String × List ℚ))) (gm_ids : String → List String)
    (last_check : Option ℚ) (now : ℚ) : Option ℚ × List PaceMsg :=
  if ¬ interval_elapsed last_check 7 now then (last_check, [])
  else
    (some now,
     (campaigns.map (fun pid =>
        check_pace_drop_body (featureOn pid) ((alookup post_ts pid).getD [])
          (gm_ids pid) now pid)).flatten)

/-! ## `process_boon_callback` (C10) -/

/-- The boundary effects of the boon-choice callback handler. -/
inductive BoonEffect where
  | ack (cbId text : String)
  | edit (chatId messageId : ℤ) (text : String)
deriving Repr, DecidableEq

/-- The fields `process_boon_callback` reads from a callback update
(`user_id` is `str(cb["from"]["id"])`). -/
structure Callback where
  id : String
  data : String
  user_id : String
  chat_id : ℤ
  message_id : ℤ
deriving Repr, DecidableEq

/-- One line of `checker._format_boon_result`. -/
def boonLine (chosen : ℕ) (ib : ℕ × String) : String :=
  if ib.1 = chosen then "\n" ++ toString (ib.1 + 1) ++ ". " ++ html_escape ib.2 ++ " ✓\n"
  else "\n<s>" ++ toString (ib.1 + 1) ++ ". " ++ html_escape ib.2 ++ "</s>\n"

/-- `checker._format_boon_result`. -/
def _format_boon_result (boons : List String) (chosen : ℕ)
    (base label : String) : String :=
  html_escape base ++ "\n\n" ++ label ++ ":" ++ String.join (boons.enum.map (boonLine chosen))

/-- `checker.process_boon_callback`: acts on `state["pending_potw_boons"]`
and returns the boundary effects. -/
def process_boon_callback (cb : Callback)
    (pending : List (String × PendingBoon)) :
    List (String × PendingBoon) × List BoonEffect :=
  if ¬ strStarts cb.data "boon:" then (pending, [])
  else
    let parts := pySplitColon cb.data
    if parts.length ≠ 3 then (pending, [.ack cb.id "Invalid choice."])
    else
      let topic_id := (parts.get? 1).getD ""
      match pyToInt ((parts.get? 2).getD "") with
      | none => (pending, [.ack cb.id "Invalid choice."])
      | some choice_idx =>
          match alookup pending topic_id with
          | none => (pending, [.ack cb.id "This choice has expired."])
          | some pb =>
              if cb.user_id ≠ pb.winner_user_id then
                (pending, [.ack cb.id "Only the Player of the Week can choose!"])
              else if choice_idx < 0 ∨ choice_idx ≥ (pb.boons.length : ℤ) then
                (pending, [.ack cb.id "Invalid choice."])
              else
                (aerase pending topic_id,
                 [.edit cb.chat_id cb.message_id
                    (_format_boon_result pb.boons choice_idx.toNat pb.base_message
                      "Chosen boon"),
                  .ack cb.id ("You chose boon #" ++ toString (choice_idx.toNat + 1) ++ "!")])

/-! ### Dictionary lemmas -/

theorem alookup_aupsert_self {α : Type} (m : List (String × α)) (k : String) (v : α) :
    alookup (aupsert m k v) k = some v := by
  induction m with
  | nil => simp [aupsert, alookup]
  | cons kv rest ih =>
      obtain ⟨k', v'⟩ := kv
      rw [aupsert]
      split_ifs with h
      · simp [alookup]
      · rw [alookup, if_neg h, ih]

theorem alookup_aerase_self {α : Type} (m : List (String × α)) (k : String) :
    alookup (aerase m k) k = none := by
  induction m with
  | nil => rfl
  | cons kv rest ih =>
      obtain ⟨k', v'⟩ := kv
      rw [aerase, List.filter_cons]
      by_cases h : k' = k
      · rw [if_neg (by simp [h])]
        exact ih
      · rw [if_pos (by simp [h])]
        rw [alookup, if_neg h]
        exact ih

/-! ### Evaluation lemmas for `floatRound` at the constants `trend_icon` uses -/

theorem floatRound_pos_eval (q : ℚ) (e r : ℤ) (h0 : 0 < q)
    (he : ilog2 q = e) (hr : rne (q * pow2 (52 - e)) = r) :
    floatRound q = (r : ℚ) * pow2 (e - 52) := by
  rw [floatRound, if_neg h0.ne', if_neg (not_lt.mpr h0.le), he, hr]

theorem rne_eval (m : ℚ) (n r : ℤ) (hn : ⌊m⌋ = n)
    (hr : (if 2 * m < 2 * (n : ℚ) + 1 then n
      else if 2 * (n : ℚ) + 1 < 2 * m then n + 1
      else if n % 2 = 0 then n else n + 1) = r) : rne m = r := by
  rw [rne, hn, hr]

/-- The binary64 value of the literal `1.15` (one ulp below `23/20`). -/
theorem floatRound_lit115 : floatRound (115 / 100 : ℚ) = 5179139571476070 / 4503599627370496 := by
  rw [floatRound_pos_eval (115 / 100) 0 5179139571476070 (by norm_num)
    (by norm_num [ilog2, ilogAuxUp])
    (rne_eval _ 5179139571476070 _ (by norm_num [pow2]) (by norm_num [pow2]))]
  norm_num [pow2]

/-- The binary64 value of the literal `0.85` (one ulp below `17/20`). -/
theorem floatRound_lit85 : floatRound (85 / 100 : ℚ) = 7656119366529843 / 9007199254740992 := by
  rw [floatRound_pos_eval (85 / 100) (-1) 7656119366529843 (by norm_num)
    (by norm_num [ilog2, ilogAuxDown])
    (rne_eval _ 7656119366529843 _ (by norm_num [pow2]) (by norm_num [pow2]))]
  norm_num [pow2]

theorem floatRound_100 : floatRound (100 : ℚ) = 100 := by
  rw [floatRound_pos_eval 100 6 (100 * 2 ^ 46) (by norm_num)
    (by norm_num [ilog2, ilogAuxUp])
    (rne_eval _ (100 * 2 ^ 46) _ (by norm_num [pow2]) (by norm_num [pow2]))]
  push_cast
  norm_num [pow2]

/-- `100 * float(1.15)` rounds one ulp BELOW `115`: this is why Python reports
`115 > 100 * 1.15` as true. -/
theorem floatRound_100_mul_lit115 :
    floatRound (100 * (5179139571476070 / 4503599627370496) : ℚ)
      = 8092405580431359 / 70368744177664 := by
  rw [floatRound_pos_eval _ 6 8092405580431359 (by norm_num)
    (by norm_num [ilog2, ilogAuxUp])
    (rne_eval _ 8092405580431359 _ (by norm_num [pow2]) (by norm_num [pow2]))]
  norm_num [pow2]

/-- `100 * float(0.85)` rounds back up to exactly `85`. -/
theorem floatRound_100_mul_lit85 :
    floatRound (100 * (7656119366529843 / 9007199254740992) : ℚ) = 85 := by
  rw [floatRound_pos_eval _ 6 (85 * 2 ^ 46) (by norm_num)
    (by norm_num [ilog2, ilogAuxUp])
    (rne_eval _ 5981343255101439 _ (by norm_num [pow2]) (by norm_num [pow2]))]
  push_cast
  norm_num [pow2]

theorem upThreshold_100 : upThreshold 100 = 8092405580431359 / 70368744177664 := by
  rw [upThreshold]
  push_cast
  rw [floatRound_100, floatRound_lit115, floatRound_100_mul_lit115]

theorem downThreshold_100 : downThreshold 100 = 85 := by
  rw [downThreshold]
  push_cast
  rw [floatRound_100, floatRound_lit85, floatRound_100_mul_lit85]

theorem trend_icon_115_100 : trend_icon 115 100 = Trend.up := by
  rw [trend_icon, if_neg (by norm_num), if_neg (by norm_num), if_pos ?hc]
  case hc =>
    rw [upThreshold_100]
    norm_num

theorem trend_icon_116_100 : trend_icon 116 100 = Trend.up := by
  rw [trend_icon, if_neg (by norm_num), if_neg (by norm_num), if_pos ?hc]
  case hc =>
    rw [upThreshold_100]
    norm_num

theorem trend_icon_0_0 : trend_icon 0 0 = Trend.noData := by
  rw [trend_icon, if_pos (by norm_num)]

theorem trend_icon_5_0 : trend_icon 5 0 = Trend.new := by
  rw [trend_icon, if_neg (by norm_num), if_pos (by norm_num)]

/-- C5: the claim as stated is false at `(recent, previous) = (115, 100)`:
`helpers.trend_icon` classifies it *up*, not *steady*, because the binary64
product `100 * 1.15` is one ulp below `115`. -/
theorem C5_counterexample :
    trend_icon 115 100 = Trend.up ∧ trend_icon 115 100 ≠ Trend.steady := by
  refine ⟨trend_icon_115_100, ?_⟩
  rw [trend_icon_115_100]
  intro h
  cases h

/-- C5 (amended): `trend_icon` returns *no-data* iff `recent = previous = 0`,
*new* iff `previous = 0 < recent`, *up* iff `previous ≠ 0` and `recent`
exceeds the binary64 value of `previous * 1.15`, *down* iff `previous ≠ 0`,
`recent` does not exceed that value and is below the binary64 value of
`previous * 0.85`, and *steady* otherwise; in binary64 `trend(115,100) = up`
(not steady), `trend(116,100) = up`, `trend(0,0) = no-data`, `trend(5,0) = new`. -/
theorem C5_trend_classifier :
    (∀ r p : ℕ, trend_icon r p = Trend.noData ↔ p = 0 ∧ r = 0) ∧
    (∀ r p : ℕ, trend_icon r p = Trend.new ↔ p = 0 ∧ 0 < r) ∧
    (∀ r p : ℕ, trend_icon r p = Trend.up ↔ p ≠ 0 ∧ (r : ℚ) > upThreshold p) ∧
    (∀ r p : ℕ, trend_icon r p = Trend.down ↔
      p ≠ 0 ∧ ¬((r : ℚ) > upThreshold p) ∧ (r : ℚ) < downThreshold p) ∧
    (∀ r p : ℕ, trend_icon r p = Trend.steady ↔
      p ≠ 0 ∧ ¬((r : ℚ) > upThreshold p) ∧ ¬((r : ℚ) < downThreshold p)) ∧
    trend_icon 115 100 = Trend.up ∧ trend_icon 116 100 = Trend.up ∧
    trend_icon 0 0 = Trend.noData ∧ trend_icon 5 0 = Trend.new := by
  refine ⟨?_, ?_, ?_, ?_, ?_, trend_icon_115_100, trend_icon_116_100,
    trend_icon_0_0, trend_icon_5_0⟩ <;>
    (intro r p; rw [trend_icon]; split_ifs <;> simp_all <;> omega)

/-! ### `deduplicate_posts` (C6) -/

/-- The session-gap relation: the next kept timestamp is more than the burst
window after the previous kept one. -/
def SessionGap (a b : ℚ) : Prop := b - a > POST_SESSION_MINUTES * 60

theorem dedupAux_chain : ∀ (l : List ℚ) (last : ℚ),
    List.Chain SessionGap last (dedupAux last l) := by
  intro l
  induction l with
  | nil => intro last; exact .nil
  | cons t ts ih =>
      intro last
      rw [dedupAux]
      split_ifs with h
      · exact .cons h (ih t)
      · exact ih last

theorem dedupAux_eq_of_chain : ∀ (l : List ℚ) (last : ℚ),
    List.Chain SessionGap last l → dedupAux last l = l := by
  intro l
  induction l with
  | nil => intro last _; rfl
  | cons t ts ih =>
      intro last h
      rcases h with _ | ⟨hg, hc⟩
      have hg' : t - last > POST_SESSION_MINUTES * 60 := hg
      rw [dedupAux, if_pos hg', ih t hc]

theorem deduplicate_posts_chain (l : List ℚ) :
    List.Chain' SessionGap (deduplicate_posts l) := by
  rw [deduplicate_posts]
  cases List.insertionSort (· ≤ ·) l with
  | nil => exact trivial
  | cons h t => exact dedupAux_chain t h

theorem sorted_of_chain_gap {l : List ℚ} (h : List.Chain' SessionGap l) :
    List.Sorted (· ≤ ·) l := by
  have hlt : List.Chain' (· < ·) l := by
    refine h.imp ?_
    intro a b hg
    have : (0 : ℚ) < POST_SESSION_MINUTES * 60 := by norm_num [POST_SESSION_MINUTES]
    have := lt_trans this hg
    linarith
  exact List.Pairwise.imp le_of_lt (List.chain'_iff_pairwise.mp hlt)

theorem deduplicate_posts_eq_of_chain {l : List ℚ} (h : List.Chain' SessionGap l) :
    deduplicate_posts l = l := by
  cases l with
  | nil => rfl
  | cons a t =>
      rw [deduplicate_posts, (sorted_of_chain_gap h).insertionSort_eq]
      show a :: dedupAux a t = a :: t
      rw [dedupAux_eq_of_chain t a h]

/-- C6: `deduplicate_posts` is idempotent, and any list already in normalized
session form (consecutive gaps all exceeding the burst window, hence sorted)
is returned unchanged. -/
theorem C6_dedup_idempotent :
    (∀ l : List ℚ, deduplicate_posts (deduplicate_posts l) = deduplicate_posts l) ∧
    (∀ l : List ℚ, List.Chain' SessionGap l → deduplicate_posts l = l) := by
  constructor
  · intro l
    exact deduplicate_posts_eq_of_chain (deduplicate_posts_chain l)
  · intro l h
    exact deduplicate_posts_eq_of_chain h

/-- C6 witness: a normalized three-session list is returned unchanged. -/
theorem C6_witness : deduplicate_posts [0, 1000, 2000] = [0, 1000, 2000] :=
  C6_dedup_idempotent.2 [0, 1000, 2000]
    (by simp [List.chain'_cons, SessionGap, POST_SESSION_MINUTES]; norm_num)

/-! ### `avg_gap_hours` (C8) -/

/-- Telescoping: the consecutive deltas (in hours) of `a :: l` sum to the
total span divided by 3600. -/
theorem gaps_sum_telescope : ∀ (a : ℚ) (l : List ℚ),
    (List.zipWith (fun prev cur => (cur - prev) / 3600) (a :: l) l).sum
      = (l.getLastD a - a) / 3600 := by
  intro a l
  induction l generalizing a with
  | nil => simp
  | cons b t ih =>
      rw [List.zipWith_cons_cons, List.sum_cons, ih b, List.getLastD_cons]
      ring

/-- C8: `avg_gap_hours` is `none` on the empty list and on singletons, and on
any list of length ≥ 2 returns the mean of the consecutive deltas in hours
(total span over number of gaps) — never an exception, and 0 only when the
span is 0. -/
theorem C8_avg_gap :
    avg_gap_hours [] = none ∧
    (∀ t : ℚ, avg_gap_hours [t] = none) ∧
    (∀ (a : ℚ) (rest : List ℚ), rest ≠ [] →
      avg_gap_hours (a :: rest) = some ((rest.getLastD a - a) / 3600 / rest.length)) := by
  refine ⟨rfl, fun t => rfl, ?_⟩
  intro a rest hne
  rw [avg_gap_hours, if_neg (by
    simp only [List.length_cons]
    have := List.length_pos.mpr hne
    omega)]
  simp only [List.tail_cons]
  rw [gaps_sum_telescope]
  congr 1
  rw [List.length_zipWith]
  simp [List.length_cons, min_eq_right (Nat.le_succ _)]

/-- C8 witness: three timestamps one and two hours apart average 1.5 hours. -/
theorem C8_witness : avg_gap_hours [0, 3600, 10800] = some (3 / 2) := by
  have h := C8_avg_gap.2.2 0 [3600, 10800] (by simp)
  rw [h]
  norm_num [List.getLastD]

/-! ### `_calc_streak` (C7) -/

theorem pydate_shift (t : ℚ) (k : ℤ) : pydate (t - (k : ℚ) * 86400) = pydate t - k := by
  rw [pydate, pydate]
  have h : (t - (k : ℚ) * 86400) / 86400 = t / 86400 - (k : ℚ) := by ring
  rw [h, Int.floor_sub_int]

theorem mem_uniqSorted : ∀ (l : List ℤ) (a : ℤ), a ∈ uniqSorted l ↔ a ∈ l := by
  intro l
  induction l using uniqSorted.induct with
  | case1 => simp [uniqSorted]
  | case2 a => simp [uniqSorted]
  | case3 a t ih =>
      intro x
      rw [uniqSorted, if_pos rfl, ih x]
      simp [List.mem_cons]
  | case4 a b t hab ih =>
      intro x
      rw [uniqSorted, if_neg hab]
      simp [List.mem_cons, ih]

theorem uniqSorted_head? : ∀ (t : List ℤ) (b : ℤ),
    (uniqSorted (b :: t)).head? = some b := by
  intro t
  induction t with
  | nil => intro b; rfl
  | cons c t' ih =>
      intro b
      rw [uniqSorted]
      split_ifs with h
      · rw [ih c, h]
      · rfl

theorem chain'_lt_uniqSorted : ∀ (l : List ℤ),
    List.Sorted (· ≤ ·) l → List.Chain' (· < ·) (uniqSorted l) := by
  intro l
  induction l using uniqSorted.induct with
  | case1 => intro _; simp [uniqSorted]
  | case2 a => intro _; simp [uniqSorted]
  | case3 a t ih =>
      intro hs
      rw [uniqSorted, if_pos rfl]
      exact ih (hs.of_cons)
  | case4 a b t hab ih =>
      intro hs
      rw [uniqSorted, if_neg hab]
      have hab' : a < b := lt_of_le_of_ne (List.rel_of_sorted_cons hs b (by simp)) hab
      refine List.Chain'.cons' (ih hs.of_cons) ?_
      intro y hy
      rw [uniqSorted_head? t b] at hy
      cases hy
      exact hab'

theorem chain'_lt_eq_of_mem {l₁ l₂ : List ℤ} (h₁ : List.Chain' (· < ·) l₁)
    (h₂ : List.Chain' (· < ·) l₂) (hm : ∀ x, x ∈ l₁ ↔ x ∈ l₂) : l₁ = l₂ := by
  have p₁ := List.chain'_iff_pairwise.mp h₁
  have p₂ := List.chain'_iff_pairwise.mp h₂
  have n₁ : l₁.Nodup := p₁.imp ne_of_lt
  have n₂ : l₂.Nodup := p₂.imp ne_of_lt
  exact List.eq_of_perm_of_sorted ((List.perm_ext_iff_of_nodup n₁ n₂).mpr hm)
    (p₁.imp le_of_lt) (p₂.imp le_of_lt)

/-- The sorted multi-set of dates collapses to any strictly increasing list
with the same members. -/
theorem uniqSorted_canonical (l m : List ℤ) (hm : List.Chain' (· < ·) m)
    (hmem : ∀ x, x ∈ m ↔ x ∈ l) :
    uniqSorted (List.insertionSort (· ≤ ·) l) = m := by
  refine chain'_lt_eq_of_mem
    (chain'_lt_uniqSorted _ (List.sorted_insertionSort _ l)) hm ?_
  intro x
  rw [mem_uniqSorted, List.mem_insertionSort]
  exact (hmem x).symm

theorem insertionSort_ne_nil {l : List ℤ} (h : l ≠ []) :
    List.insertionSort (· ≤ ·) l ≠ [] := by
  intro heq
  have := List.length_insertionSort (· ≤ ·) l
  rw [heq] at this
  exact h (List.eq_nil_of_length_eq_zero this.symm)

theorem uniqSorted_ne_nil {l : List ℤ} (h : l ≠ []) : uniqSorted l ≠ [] := by
  cases l with
  | nil => exact absurd rfl h
  | cons b t =>
      intro heq
      have := uniqSorted_head? t b
      rw [heq] at this
      cases this

/-- When every post date is before yesterday, the streak is 0. -/
theorem streak_zero_of_stale (raw : List ℚ) (now : ℚ)
    (h : ∀ t ∈ raw, pydate t < pydate now - 1) : _calc_streak raw now = 0 := by
  by_cases hr : raw = []
  · simp [_calc_streak, hr]
  · rw [_calc_streak, if_neg hr]
    rw [if_pos ?_]
    rw [List.getLastD_eq_getLast?]
    cases hopt : (uniqSorted (List.insertionSort (· ≤ ·) (raw.map pydate))).getLast? with
    | none =>
        exfalso
        exact uniqSorted_ne_nil (insertionSort_ne_nil (by simpa using hr))
          (List.getLast?_eq_none_iff.mp hopt)
    | some x =>
        have hx : x ∈ uniqSorted (List.insertionSort (· ≤ ·) (raw.map pydate)) :=
          List.mem_of_mem_getLast? hopt
        rw [mem_uniqSorted, List.mem_insertionSort, List.mem_map] at hx
        obtain ⟨t, ht, rfl⟩ := hx
        simpa using h t ht

/-- A further post on an already-posted calendar day never changes the streak. -/
theorem streak_same_day (raw : List ℚ) (now t : ℚ) (h : pydate t ∈ raw.map pydate) :
    _calc_streak (t :: raw) now = _calc_streak raw now := by
  have hr : raw ≠ [] := by rintro rfl; simp at h
  have key : uniqSorted (List.insertionSort (· ≤ ·) ((t :: raw).map pydate))
      = uniqSorted (List.insertionSort (· ≤ ·) (raw.map pydate)) := by
    refine chain'_lt_eq_of_mem (chain'_lt_uniqSorted _ (List.sorted_insertionSort _ _))
      (chain'_lt_uniqSorted _ (List.sorted_insertionSort _ _)) ?_
    intro x
    rw [mem_uniqSorted, mem_uniqSorted, List.mem_insertionSort, List.mem_insertionSort]
    simp only [List.map_cons, List.mem_cons]
    constructor
    · rintro (rfl | hx)
      · exact h
      · exact hx
    · exact fun hx => Or.inr hx
  simp only [_calc_streak]
  rw [if_neg (by simp), if_neg hr, key]

/-- One post on each of the 7 calendar days ending today gives streak 7. -/
theorem streak_week_ladder (now : ℚ) :
    _calc_streak [now, now - 86400, now - 2 * 86400, now - 3 * 86400,
      now - 4 * 86400, now - 5 * 86400, now - 6 * 86400] now = 7 := by
  have h1 := pydate_shift now 1
  have h2 := pydate_shift now 2
  have h3 := pydate_shift now 3
  have h4 := pydate_shift now 4
  have h5 := pydate_shift now 5
  have h6 := pydate_shift now 6
  norm_num at h1 h2 h3 h4 h5 h6
  have hcanon : uniqSorted (List.insertionSort (· ≤ ·)
      ([now, now - 86400, now - 2 * 86400, now - 3 * 86400,
        now - 4 * 86400, now - 5 * 86400, now - 6 * 86400].map pydate))
      = [pydate now - 6, pydate now - 5, pydate now - 4, pydate now - 3,
         pydate now - 2, pydate now - 1, pydate now] := by
    have hmap : ([now, now - 86400, now - 2 * 86400, now - 3 * 86400,
        now - 4 * 86400, now - 5 * 86400, now - 6 * 86400].map pydate)
        = [pydate now, pydate now - 1, pydate now - 2, pydate now - 3,
           pydate now - 4, pydate now - 5, pydate now - 6] := by
      norm_num [List.map_cons, List.map_nil, h1, h2, h3, h4, h5, h6]
    rw [hmap]
    refine uniqSorted_canonical _ _ ?_ ?_
    · simp [List.chain'_cons]
    · intro x
      simp only [List.mem_cons, List.not_mem_nil, or_false]
      tauto
  rw [_calc_streak]
  rw [if_neg (by simp)]
  simp only [hcanon]
  rw [if_neg (by simp [List.getLastD])]
  have hrev : ([pydate now - 6, pydate now - 5, pydate now - 4, pydate now - 3,
      pydate now - 2, pydate now - 1, pydate now].reverse)
      = [pydate now, pydate now - 1, pydate now - 2, pydate now - 3,
         pydate now - 4, pydate now - 5, pydate now - 6] := by
    simp
  rw [hrev]
  rw [streakLoop, if_pos (by omega), streakLoop, if_pos (by omega),
    streakLoop, if_pos (by omega), streakLoop, if_pos (by omega),
    streakLoop, if_pos (by omega), streakLoop, if_pos (by omega)]
  rfl

/-- Adding one more post 8 days back (with day 7 skipped) still gives streak 7. -/
theorem streak_week_ladder_gap (now : ℚ) :
    _calc_streak [now, now - 86400, now - 2 * 86400, now - 3 * 86400,
      now - 4 * 86400, now - 5 * 86400, now - 6 * 86400, now - 8 * 86400] now = 7 := by
  have h1 := pydate_shift now 1
  have h2 := pydate_shift now 2
  have h3 := pydate_shift now 3
  have h4 := pydate_shift now 4
  have h5 := pydate_shift now 5
  have h6 := pydate_shift now 6
  have h8 := pydate_shift now 8
  norm_num at h1 h2 h3 h4 h5 h6 h8
  have hcanon : uniqSorted (List.insertionSort (· ≤ ·)
      ([now, now - 86400, now - 2 * 86400, now - 3 * 86400,
        now - 4 * 86400, now - 5 * 86400, now - 6 * 86400, now - 8 * 86400].map pydate))
      = [pydate now - 8, pydate now - 6, pydate now - 5, pydate now - 4, pydate now - 3,
         pydate now - 2, pydate now - 1, pydate now] := by
    have hmap : ([now, now - 86400, now - 2 * 86400, now - 3 * 86400,
        now - 4 * 86400, now - 5 * 86400, now - 6 * 86400, now - 8 * 86400].map pydate)
        = [pydate now, pydate now - 1, pydate now - 2, pydate now - 3,
           pydate now - 4, pydate now - 5, pydate now - 6, pydate now - 8] := by
      norm_num [List.map_cons, List.map_nil, h1, h2, h3, h4, h5, h6, h8]
    rw [hmap]
    refine uniqSorted_canonical _ _ ?_ ?_
    · simp [List.chain'_cons]
    · intro x
      simp only [List.mem_cons, List.not_mem_nil, or_false]
      tauto
  rw [_calc_streak]
  rw [if_neg (by simp)]
  simp only [hcanon]
  rw [if_neg (by simp [List.getLastD])]
  have hrev : ([pydate now - 8, pydate now - 6, pydate now - 5, pydate now - 4,
      pydate now - 3, pydate now - 2, pydate now - 1, pydate now].reverse)
      = [pydate now, pydate now - 1, pydate now - 2, pydate now - 3,
         pydate now - 4, pydate now - 5, pydate now - 6, pydate now - 8] := by
    simp
  rw [hrev]
  rw [streakLoop, if_pos (by omega), streakLoop, if_pos (by omega),
    streakLoop, if_pos (by omega), streakLoop, if_pos (by omega),
    streakLoop, if_pos (by omega), streakLoop, if_pos (by omega),
    streakLoop, if_neg (by omega), if_neg (by omega)]

/-- C7: `_calc_streak` returns 0 when every post date is before yesterday;
a repeat post on an already-counted calendar day never changes the streak;
posting every calendar day from `now-6d` to `now` gives streak 7; and the
streak stays 7 when a further post sits at `now-8d` with `now-7d` skipped. -/
theorem C7_calc_streak :
    (∀ (raw : List ℚ) (now : ℚ), (∀ t ∈ raw, pydate t < pydate now - 1) →
      _calc_streak raw now = 0) ∧
    (∀ (raw : List ℚ) (now t : ℚ), pydate t ∈ raw.map pydate →
      _calc_streak (t :: raw) now = _calc_streak raw now) ∧
    (∀ now : ℚ, _calc_streak [now, now - 86400, now - 2 * 86400, now - 3 * 86400,
      now - 4 * 86400, now - 5 * 86400, now - 6 * 86400] now = 7) ∧
    (∀ now : ℚ, _calc_streak [now, now - 86400, now - 2 * 86400, now - 3 * 86400,
      now - 4 * 86400, now - 5 * 86400, now - 6 * 86400, now - 8 * 86400] now = 7) :=
  ⟨streak_zero_of_stale, streak_same_day, streak_week_ladder, streak_week_ladder_gap⟩

/-- C7 witness: a lone post 10 days back has streak 0, and a same-day repeat
post leaves the streak unchanged. -/
theorem C7_witness :
    _calc_streak [0] (10 * 86400) = 0 ∧
    _calc_streak [86400 + 100, 86400] (2 * 86400) = _calc_streak [86400] (2 * 86400) :=
  ⟨C7_calc_streak.1 [0] (10 * 86400) (by
      intro t ht
      simp only [List.mem_singleton] at ht
      subst ht
      norm_num [pydate]),
    C7_calc_streak.2.1 [86400] (2 * 86400) (86400 + 100) (by norm_num [pydate])⟩

/-! ### `process_updates` player tracking (C9) -/

/-- C9: processing a non-GM message with a non-empty sender id overwrites the
`(campaign, user)` player record with `last_warned_week = 0` and deletes the
key from the removed-players ledger — one post both resurrects a removed
player and resets the warning ladder regardless of prior warnings. -/
theorem C9_track_player :
    ∀ (st : PlayersState) (pid uid user_name last_name username campaign_name : String)
      (msg_time : ℚ) (gm_ids : List String), uid ≠ "" → uid ∉ gm_ids →
      alookup (track_player st pid uid user_name last_name username campaign_name
          msg_time gm_ids).players (player_key pid uid)
        = some ⟨uid, user_name, last_name, username, campaign_name, pid, msg_time, 0⟩ ∧
      alookup (track_player st pid uid user_name last_name username campaign_name
          msg_time gm_ids).removed_players (player_key pid uid) = none := by
  intro st pid uid un ln us cn mt gms h1 h2
  rw [track_player, if_pos ⟨h1, h2⟩]
  exact ⟨alookup_aupsert_self _ _ _, alookup_aerase_self _ _⟩

/-- C9 witness: a removed player with three prior warnings posts once and is
tracked again with the ladder reset. -/
theorem C9_witness :
    alookup (track_player
        ⟨[("100:42", ⟨"42", "Old", "", "", "Camp", "100", 0, 3⟩)],
         [("100:42", ⟨0, "Old", "", "Camp"⟩)]⟩
        "100" "42" "Alice" "" "alice" "Camp" 500 ["999"]).players
      (player_key "100" "42")
      = some ⟨"42", "Alice", "", "alice", "Camp", "100", 500, 0⟩ ∧
    alookup (track_player
        ⟨[("100:42", ⟨"42", "Old", "", "", "Camp", "100", 0, 3⟩)],
         [("100:42", ⟨0, "Old", "", "Camp"⟩)]⟩
        "100" "42" "Alice" "" "alice" "Camp" 500 ["999"]).removed_players
      (player_key "100" "42") = none :=
  C9_track_player _ "100" "42" "Alice" "" "alice" "Camp" 500 ["999"]
    (by decide) (by decide)

/-! ### Combat acted-set invariant (C3) -/

theorem round_cmd_clears (text pid cname : String) (now : ℚ)
    (combat : List (String × Combat)) (c : Combat) (r : ℤ)
    (hl : alookup combat pid = some c)
    (hp : parseRound text = some (r, "players"))
    (hcond : c.current_phase ≠ "players" ∨ c.round ≠ r) :
    alookup (_handle_round_command text pid cname now combat).1 pid
      = some ⟨c.active, c.campaign_name, r, "players", now, [], none⟩ := by
  rw [_handle_round_command, hp, hl]
  simp only
  rw [if_pos ⟨by trivial, hcond⟩]
  exact alookup_aupsert_self _ _ _

theorem round_cmd_noop (text pid cname : String) (now : ℚ)
    (combat : List (String × Combat)) (c : Combat)
    (hl : alookup combat pid = some c)
    (hp : parseRound text = some (c.round, "players"))
    (hphase : c.current_phase = "players") :
    alookup (_handle_round_command text pid cname now combat).1 pid
      = some ⟨c.active, c.campaign_name, c.round, "players", now, c.players_acted, none⟩ := by
  rw [_handle_round_command, hp, hl]
  simp only
  rw [if_neg (by simp [hphase])]
  exact alookup_aupsert_self _ _ _

theorem round_cmd_enemies (text pid cname : String) (now : ℚ)
    (combat : List (String × Combat)) (c : Combat) (r : ℤ)
    (hl : alookup combat pid = some c)
    (hp : parseRound text = some (r, "enemies")) :
    alookup (_handle_round_command text pid cname now combat).1 pid
      = some ⟨c.active, c.campaign_name, r, "enemies", now, c.players_acted, none⟩ := by
  rw [_handle_round_command, hp, hl]
  simp only
  rw [if_neg (by simp)]
  exact alookup_aupsert_self _ _ _

theorem round_cmd_invalid (text pid cname : String) (now : ℚ)
    (combat : List (String × Combat)) (hp : parseRound text = none) :
    _handle_round_command text pid cname now combat = (combat, []) := by
  rw [_handle_round_command, hp]

theorem endcombat_deletes (text user_id : String) (gm_ids : List String)
    (pid cname : String) (now : ℚ) (combat : List (String × Combat))
    (hgm : user_id ∈ gm_ids)
    (hnr : strStarts text "/round" = false)
    (hend : strStarts text "/endcombat" = true ∨ text = "/combat end") :
    alookup (_handle_combat_message text user_id gm_ids pid cname now combat).1 pid
      = none := by
  rw [_handle_combat_message]
  simp only [hgm, hnr, if_true, if_false, Bool.false_eq_true, if_pos hend]
  cases hl : alookup combat pid with
  | none => simp [hl]
  | some c =>
      simp only [hl]
      rw [alookup_aerase_self]
      simp [alookup_aerase_self]

theorem track_adds (text user_id : String) (gm_ids : List String)
    (pid cname : String) (now : ℚ) (combat : List (String × Combat)) (c : Combat)
    (hgm : user_id ∉ gm_ids) (hl : alookup combat pid = some c)
    (hact : c.active = true) (hph : c.current_phase = "players")
    (hmem : user_id ∉ c.players_acted) :
    alookup (_handle_combat_message text user_id gm_ids pid cname now combat).1 pid
      = some { c with players_acted := c.players_acted ++ [user_id] } := by
  rw [_handle_combat_message]
  simp only [if_neg hgm]
  rw [hl]
  simp only
  rw [if_pos ⟨by simp [hact], hph, hgm, hmem⟩]
  exact alookup_aupsert_self _ _ _

theorem track_idem (text user_id : String) (gm_ids : List String)
    (pid cname : String) (now : ℚ) (combat : List (String × Combat)) (c : Combat)
    (hgm : user_id ∉ gm_ids) (hl : alookup combat pid = some c)
    (hmem : user_id ∈ c.players_acted) :
    (_handle_combat_message text user_id gm_ids pid cname now combat).1 = combat := by
  rw [_handle_combat_message]
  simp only [if_neg hgm]
  rw [hl]
  simp only
  rw [if_neg (fun h => h.2.2.2 hmem)]

/-- C3: across `/round`, `/endcombat` and non-GM message tracking, the
acted-set is cleared exactly on a `/round` transition into the players phase
whose prior phase differs or whose round number differs; re-issuing the same
round and players phase, and entering the enemies phase, preserve it;
invalid `/round` commands change nothing; `/endcombat` deletes the whole
record; and tracking adds the sender idempotently. -/
theorem C3_acted_set_invariant :
    (∀ (text pid cname : String) (now : ℚ) (combat : List (String × Combat))
       (c : Combat) (r : ℤ), alookup combat pid = some c →
       parseRound text = some (r, "players") →
       (c.current_phase ≠ "players" ∨ c.round ≠ r) →
       alookup (_handle_round_command text pid cname now combat).1 pid
         = some ⟨c.active, c.campaign_name, r, "players", now, [], none⟩) ∧
    (∀ (text pid cname : String) (now : ℚ) (combat : List (String × Combat))
       (c : Combat), alookup combat pid = some c →
       parseRound text = some (c.round, "players") → c.current_phase = "players" →
       alookup (_handle_round_command text pid cname now combat).1 pid
         = some ⟨c.active, c.campaign_name, c.round, "players", now,
             c.players_acted, none⟩) ∧
    (∀ (text pid cname : String) (now : ℚ) (combat : List (String × Combat))
       (c : Combat) (r : ℤ), alookup combat pid = some c →
       parseRound text = some (r, "enemies") →
       alookup (_handle_round_command text pid cname now combat).1 pid
         = some ⟨c.active, c.campaign_name, r, "enemies", now,
             c.players_acted, none⟩) ∧
    (∀ (text pid cname : String) (now : ℚ) (combat : List (String × Combat)),
       parseRound text = none →
       _handle_round_command text pid cname now combat = (combat, [])) ∧
    (∀ (text user_id : String) (gm_ids : List String) (pid cname : String)
       (now : ℚ) (combat : List (String × Combat)), user_id ∈ gm_ids →
       strStarts text "/round" = false →
       (strStarts text "/endcombat" = true ∨ text = "/combat end") →
       alookup (_handle_combat_message text user_id gm_ids pid cname now combat).1 pid
         = none) ∧
    (∀ (text user_id : String) (gm_ids : List String) (pid cname : String)
       (now : ℚ) (combat : List (String × Combat)) (c : Combat),
       user_id ∉ gm_ids → alookup combat pid = some c → c.active = true →
       c.current_phase = "players" → user_id ∉ c.players_acted →
       alookup (_handle_combat_message text user_id gm_ids pid cname now combat).1 pid
         = some { c with players_acted := c.players_acted ++ [user_id] }) ∧
    (∀ (text user_id : String) (gm_ids : List String) (pid cname : String)
       (now : ℚ) (combat : List (String × Combat)) (c : Combat),
       user_id ∉ gm_ids → alookup combat pid = some c → user_id ∈ c.players_acted →
       (_handle_combat_message text user_id gm_ids pid cname now combat).1 = combat) :=
  ⟨round_cmd_clears, round_cmd_noop, round_cmd_enemies, round_cmd_invalid,
   endcombat_deletes, track_adds, track_idem⟩

/-- C3 witness: each conjunct exercised on a concrete combat map. -/
theorem C3_witness :
    alookup (_handle_round_command "/round 2 players" "100" "Camp" 5
        [("100", ⟨true, "Camp", 1, "enemies", 0, ["42"], none⟩)]).1 "100"
      = some ⟨true, "Camp", 2, "players", 5, [], none⟩ ∧
    alookup (_handle_round_command "/round 2 players" "100" "Camp" 5
        [("100", ⟨true, "Camp", 2, "players", 0, ["42"], none⟩)]).1 "100"
      = some ⟨true, "Camp", 2, "players", 5, ["42"], none⟩ ∧
    alookup (_handle_round_command "/round 3 enemies" "100" "Camp" 5
        [("100", ⟨true, "Camp", 2, "players", 0, ["42"], none⟩)]).1 "100"
      = some ⟨true, "Camp", 3, "enemies", 5, ["42"], none⟩ ∧
    _handle_round_command "/round x players" "100" "Camp" 5
        [("100", ⟨true, "Camp", 1, "enemies", 0, ["42"], none⟩)]
      = ([("100", ⟨true, "Camp", 1, "enemies", 0, ["42"], none⟩)], []) ∧
    alookup (_handle_combat_message "/endcombat" "999" ["999"] "100" "Camp" 5
        [("100", ⟨true, "Camp", 1, "enemies", 0, ["42"], none⟩)]).1 "100" = none ∧
    alookup (_handle_combat_message "I attack!" "43" ["999"] "100" "Camp" 5
        [("100", ⟨true, "Camp", 2, "players", 0, ["42"], none⟩)]).1 "100"
      = some ⟨true, "Camp", 2, "players", 0, ["42", "43"], none⟩ ∧
    (_handle_combat_message "I attack again!" "42" ["999"] "100" "Camp" 5
        [("100", ⟨true, "Camp", 2, "players", 0, ["42"], none⟩)]).1
      = [("100", ⟨true, "Camp", 2, "players", 0, ["42"], none⟩)] :=
  ⟨C3_acted_set_invariant.1 "/round 2 players" "100" "Camp" 5 _
      ⟨true, "Camp", 1, "enemies", 0, ["42"], none⟩ 2 rfl (by decide)
      (Or.inl (by decide)),
   C3_acted_set_invariant.2.1 "/round 2 players" "100" "Camp" 5 _
      ⟨true, "Camp", 2, "players", 0, ["42"], none⟩ rfl (by decide) rfl,
   C3_acted_set_invariant.2.2.1 "/round 3 enemies" "100" "Camp" 5 _
      ⟨true, "Camp", 2, "players", 0, ["42"], none⟩ 3 rfl (by decide),
   C3_acted_set_invariant.2.2.2.1 "/round x players" "100" "Camp" 5 _ (by decide),
   C3_acted_set_invariant.2.2.2.2.1 "/endcombat" "999" ["999"] "100" "Camp" 5 _
      (by decide) (by decide) (Or.inl (by decide)),
   C3_acted_set_invariant.2.2.2.2.2.1 "I attack!" "43" ["999"] "100" "Camp" 5 _
      ⟨true, "Camp", 2, "players", 0, ["42"], none⟩ (by decide) rfl rfl rfl (by decide),
   C3_acted_set_invariant.2.2.2.2.2.2 "I attack again!" "42" ["999"] "100" "Camp" 5 _
      ⟨true, "Camp", 2, "players", 0, ["42"], none⟩ (by decide) rfl (by decide)⟩

/-! ### `process_boon_callback` (C10) -/

theorem boon_silent_return (cb : Callback) (pending : List (String × PendingBoon))
    (h : strStarts cb.data "boon:" = false) :
    process_boon_callback cb pending = (pending, []) := by
  rw [process_boon_callback, if_pos (by simp [h])]

theorem boon_bad_parts (cb : Callback) (pending : List (String × PendingBoon))
    (h : strStarts cb.data "boon:" = true) (hl : (pySplitColon cb.data).length ≠ 3) :
    process_boon_callback cb pending = (pending, [.ack cb.id "Invalid choice."]) := by
  rw [process_boon_callback, if_neg (by simp [h])]
  simp only
  rw [if_pos hl]

theorem boon_bad_int (cb : Callback) (pending : List (String × PendingBoon))
    (h : strStarts cb.data "boon:" = true) (hl : (pySplitColon cb.data).length = 3)
    (hi : pyToInt (((pySplitColon cb.data).get? 2).getD "") = none) :
    process_boon_callback cb pending = (pending, [.ack cb.id "Invalid choice."]) := by
  rw [process_boon_callback, if_neg (by simp [h])]
  simp only
  rw [if_neg (by simp [hl]), hi]

theorem boon_expired (cb : Callback) (pending : List (String × PendingBoon)) (idx : ℤ)
    (h : strStarts cb.data "boon:" = true) (hl : (pySplitColon cb.data).length = 3)
    (hi : pyToInt (((pySplitColon cb.data).get? 2).getD "") = some idx)
    (hp : alookup pending (((pySplitColon cb.data).get? 1).getD "") = none) :
    process_boon_callback cb pending = (pending, [.ack cb.id "This choice has expired."]) := by
  rw [process_boon_callback, if_neg (by simp [h])]
  simp only
  rw [if_neg (by simp [hl]), hi, hp]

theorem boon_wrong_user (cb : Callback) (pending : List (String × PendingBoon))
    (idx : ℤ) (pb : PendingBoon)
    (h : strStarts cb.data "boon:" = true) (hl : (pySplitColon cb.data).length = 3)
    (hi : pyToInt (((pySplitColon cb.data).get? 2).getD "") = some idx)
    (hp : alookup pending (((pySplitColon cb.data).get? 1).getD "") = some pb)
    (hu : cb.user_id ≠ pb.winner_user_id) :
    process_boon_callback cb pending
      = (pending, [.ack cb.id "Only the Player of the Week can choose!"]) := by
  rw [process_boon_callback, if_neg (by simp [h])]
  simp only
  rw [if_neg (by simp [hl]), hi, hp]
  simp only
  rw [if_pos hu]

theorem boon_out_of_range (cb : Callback) (pending : List (String × PendingBoon))
    (idx : ℤ) (pb : PendingBoon)
    (h : strStarts cb.data "boon:" = true) (hl : (pySplitColon cb.data).length = 3)
    (hi : pyToInt (((pySplitColon cb.data).get? 2).getD "") = some idx)
    (hp : alookup pending (((pySplitColon cb.data).get? 1).getD "") = some pb)
    (hu : cb.user_id = pb.winner_user_id)
    (hr : idx < 0 ∨ idx ≥ (pb.boons.length : ℤ)) :
    process_boon_callback cb pending = (pending, [.ack cb.id "Invalid choice."]) := by
  rw [process_boon_callback, if_neg (by simp [h])]
  simp only
  rw [if_neg (by simp [hl]), hi, hp]
  simp only
  rw [if_neg (by simp [hu]), if_pos hr]

theorem boon_success (cb : Callback) (pending : List (String × PendingBoon))
    (idx : ℤ) (pb : PendingBoon)
    (h : strStarts cb.data "boon:" = true) (hl : (pySplitColon cb.data).length = 3)
    (hi : pyToInt (((pySplitColon cb.data).get? 2).getD "") = some idx)
    (hp : alookup pending (((pySplitColon cb.data).get? 1).getD "") = some pb)
    (hu : cb.user_id = pb.winner_user_id)
    (hr : 0 ≤ idx ∧ idx < (pb.boons.length : ℤ)) :
    process_boon_callback cb pending
      = (aerase pending (((pySplitColon cb.data).get? 1).getD ""),
         [.edit cb.chat_id cb.message_id
            (_format_boon_result pb.boons idx.toNat pb.base_message "Chosen boon"),
          .ack cb.id ("You chose boon #" ++ toString (idx.toNat + 1) ++ "!")]) := by
  rw [process_boon_callback, if_neg (by simp [h])]
  simp only
  rw [if_neg (by simp [hl]), hi, hp]
  simp only
  rw [if_neg (by simp [hu]), if_neg (by push_neg; omega)]

/-- C10 (amended): `process_boon_callback` deletes the pending award choice
(and edits the award message) exactly when the callback data is well-formed
`boon:<topic>:<index>`, a pending entry exists for the topic, the tapping
user is the stored winner, and the index is within the offered boons; every
other well-formed-prefix case leaves the state unchanged and answers with
exactly one acknowledgement; a callback whose data does not start with
`boon:` is ignored silently — no acknowledgement is sent. -/
theorem C10_boon_callback :
    (∀ (cb : Callback) (pending : List (String × PendingBoon)),
      strStarts cb.data "boon:" = false →
      process_boon_callback cb pending = (pending, [])) ∧
    (∀ (cb : Callback) (pending : List (String × PendingBoon)),
      strStarts cb.data "boon:" = true → (pySplitColon cb.data).length ≠ 3 →
      process_boon_callback cb pending = (pending, [.ack cb.id "Invalid choice."])) ∧
    (∀ (cb : Callback) (pending : List (String × PendingBoon)),
      strStarts cb.data "boon:" = true → (pySplitColon cb.data).length = 3 →
      pyToInt (((pySplitColon cb.data).get? 2).getD "") = none →
      process_boon_callback cb pending = (pending, [.ack cb.id "Invalid choice."])) ∧
    (∀ (cb : Callback) (pending : List (String × PendingBoon)) (idx : ℤ),
      strStarts cb.data "boon:" = true → (pySplitColon cb.data).length = 3 →
      pyToInt (((pySplitColon cb.data).get? 2).getD "") = some idx →
      alookup pending (((pySplitColon cb.data).get? 1).getD "") = none →
      process_boon_callback cb pending
        = (pending, [.ack cb.id "This choice has expired."])) ∧
    (∀ (cb : Callback) (pending : List (String × PendingBoon)) (idx : ℤ)
       (pb : PendingBoon),
      strStarts cb.data "boon:" = true → (pySplitColon cb.data).length = 3 →
      pyToInt (((pySplitColon cb.data).get? 2).getD "") = some idx →
      alookup pending (((pySplitColon cb.data).get? 1).getD "") = some pb →
      cb.user_id ≠ pb.winner_user_id →
      process_boon_callback cb pending
        = (pending, [.ack cb.id "Only the Player of the Week can choose!"])) ∧
    (∀ (cb : Callback) (pending : List (String × PendingBoon)) (idx : ℤ)
       (pb : PendingBoon),
      strStarts cb.data "boon:" = true → (pySplitColon cb.data).length = 3 →
      pyToInt (((pySplitColon cb.data).get? 2).getD "") = some idx →
      alookup pending (((pySplitColon cb.data).get? 1).getD "") = some pb →
      cb.user_id = pb.winner_user_id → (idx < 0 ∨ idx ≥ (pb.boons.length : ℤ)) →
      process_boon_callback cb pending = (pending, [.ack cb.id "Invalid choice."])) ∧
    (∀ (cb : Callback) (pending : List (String × PendingBoon)) (idx : ℤ)
       (pb : PendingBoon),
      strStarts cb.data "boon:" = true → (pySplitColon cb.data).length = 3 →
      pyToInt (((pySplitColon cb.data).get? 2).getD "") = some idx →
      alookup pending (((pySplitColon cb.data).get? 1).getD "") = some pb →
      cb.user_id = pb.winner_user_id → (0 ≤ idx ∧ idx < (pb.boons.length : ℤ)) →
      process_boon_callback cb pending
        = (aerase pending (((pySplitColon cb.data).get? 1).getD ""),
           [.edit cb.chat_id cb.message_id
              (_format_boon_result pb.boons idx.toNat pb.base_message "Chosen boon"),
            .ack cb.id ("You chose boon #" ++ toString (idx.toNat + 1) ++ "!")])) :=
  ⟨boon_silent_return, boon_bad_parts, boon_bad_int, boon_expired, boon_wrong_user,
   boon_out_of_range, boon_success⟩

/-- C10 counterexample: the claim says every non-deleting case still answers
the user with an acknowledgement text, but a callback whose data does not
start with `boon:` (here `potw:100:0`, with a pending entry present) returns
silently: the state is unchanged and NO boundary effect — in particular no
acknowledgement — is produced. -/
theorem C10_counterexample :
    process_boon_callback ⟨"cb1", "potw:100:0", "42", 5, 7⟩
        [("100", ⟨7, "42", ["Boon A", "Boon B"], "msg", 0⟩)]
      = ([("100", ⟨7, "42", ["Boon A", "Boon B"], "msg", 0⟩)], []) :=
  boon_silent_return _ _ (by decide)

/-- C10 witness: the winner taps a valid second choice (pending entry deleted,
message edited, tap acknowledged); a non-winner tap changes nothing and is
only acknowledged. -/
theorem C10_witness :
    process_boon_callback ⟨"cb1", "boon:100:1", "42", 5, 7⟩
        [("100", ⟨7, "42", ["Boon A", "Boon B"], "msg", 0⟩)]
      = ([],
         [.edit 5 7 (_format_boon_result ["Boon A", "Boon B"] (1 : ℤ).toNat "msg"
            "Chosen boon"),
          .ack "cb1" ("You chose boon #" ++ toString ((1 : ℤ).toNat + 1) ++ "!")]) ∧
    process_boon_callback ⟨"cb2", "boon:100:0", "43", 5, 7⟩
        [("100", ⟨7, "42", ["Boon A", "Boon B"], "msg", 0⟩)]
      = ([("100", ⟨7, "42", ["Boon A", "Boon B"], "msg", 0⟩)],
         [.ack "cb2" "Only the Player of the Week can choose!"]) :=
  ⟨C10_boon_callback.2.2.2.2.2.2 ⟨"cb1", "boon:100:1", "42", 5, 7⟩
      [("100", ⟨7, "42", ["Boon A", "Boon B"], "msg", 0⟩)] 1
      ⟨7, "42", ["Boon A", "Boon B"], "msg", 0⟩
      (by decide) (by decide) (by decide) rfl rfl (by decide),
   C10_boon_callback.2.2.2.2.1 ⟨"cb2", "boon:100:0", "43", 5, 7⟩
      [("100", ⟨7, "42", ["Boon A", "Boon B"], "msg", 0⟩)] 0
      ⟨7, "42", ["Boon A", "Boon B"], "msg", 0⟩
      (by decide) (by decide) (by decide) rfl (by decide)⟩

/-! ### `check_player_activity` warning ladder (C2) -/

theorem findWarnWeek_min : ∀ (l : List ℕ), List.Sorted (· < ·) l →
    ∀ (cw : ℤ) (lw w : ℕ), findWarnWeek cw lw l = some w →
    w ∈ l ∧ cw ≥ (w : ℤ) ∧ lw < w ∧
      ∀ w' ∈ l, w' < w → ¬(cw ≥ (w' : ℤ) ∧ lw < w') := by
  intro l
  induction l with
  | nil => intro _ cw lw w h; cases h
  | cons a as ih =>
      intro hs cw lw w h
      rw [findWarnWeek] at h
      split_ifs at h with hc
      · cases h
        refine ⟨List.mem_cons_self a as, hc.1, hc.2, ?_⟩
        intro w' hw' hlt
        rcases List.mem_cons.mp hw' with rfl | hmem
        · omega
        · have := (List.sorted_cons.mp hs).1 w' hmem
          omega
      · obtain ⟨hmem, hcw, hlw, hmin⟩ := ih (List.sorted_cons.mp hs).2 cw lw w h
        refine ⟨List.mem_cons_of_mem a hmem, hcw, hlw, ?_⟩
        intro w' hw' hlt
        rcases List.mem_cons.mp hw' with rfl | hmem'
        · exact hc
        · exact hmin w' hmem' hlt

theorem step_sends_le_one (f pz : Bool) (ct : Option ℤ) (now : ℚ) (s : Bool)
    (k : String) (p : Player) :
    ((check_player_activity_step f pz ct now s k p).2.1).length ≤ 1 := by
  rw [check_player_activity_step.eq_def]
  cases ct with
  | none => simp
  | some t =>
      simp only
      cases hfw : findWarnWeek (pyInt (days_since now p.last_post_time / 7))
          p.last_warned_week PLAYER_WARN_WEEKS <;>
        split_ifs <;> simp

theorem step_warn_least (f pz : Bool) (ct : Option ℤ) (now : ℚ) (s : Bool)
    (k : String) (p : Player) (w : ℕ)
    (hmem : WarnMsg.warn k w ∈ (check_player_activity_step f pz ct now s k p).2.1) :
    w ∈ PLAYER_WARN_WEEKS ∧
    pyInt (days_since now p.last_post_time / 7) ≥ (w : ℤ) ∧
    p.last_warned_week < w ∧
    ∀ w' ∈ PLAYER_WARN_WEEKS, w' < w →
      ¬(pyInt (days_since now p.last_post_time / 7) ≥ (w' : ℤ) ∧ p.last_warned_week < w') := by
  rw [check_player_activity_step.eq_def] at hmem
  cases ct with
  | none => simp at hmem
  | some t =>
      simp only at hmem
      cases hfw : findWarnWeek (pyInt (days_since now p.last_post_time / 7))
          p.last_warned_week PLAYER_WARN_WEEKS with
      | none =>
          rw [hfw] at hmem
          split_ifs at hmem <;> simp at hmem
      | some w0 =>
          rw [hfw] at hmem
          split_ifs at hmem <;> simp at hmem
          all_goals subst hmem
          all_goals
            exact findWarnWeek_min PLAYER_WARN_WEEKS (by decide) _ _ _ hfw
theorem step_first_warn (now : ℚ) (key : String) (p : Player) (ct : ℤ)
    (hlp : p.last_post_time = now - 25 * 86400) (hlw : p.last_warned_week = 0) :
    check_player_activity_step true false (some ct) now true key p
      = ({ p with last_warned_week := 1 }, [.warn key 1], false) := by
  have hcw : pyInt (days_since now p.last_post_time / 7) = 3 := by
    rw [hlp, days_since, pyInt]
    norm_num
  rw [check_player_activity_step.eq_def]
  simp only
  rw [if_neg (by simp), if_neg (by simp), if_neg (by rw [hcw]; decide)]
  rw [hcw, hlw]
  rw [show findWarnWeek 3 0 PLAYER_WARN_WEEKS = some 1 by decide]
  simp

theorem step_second_warn (now : ℚ) (key : String) (p : Player) (ct : ℤ)
    (hlp : p.last_post_time = now - (25 * 86400 + 3600)) (hlw : p.last_warned_week = 1) :
    check_player_activity_step true false (some ct) now true key p
      = ({ p with last_warned_week := 2 }, [.warn key 2], false) := by
  have hcw : pyInt (days_since now p.last_post_time / 7) = 3 := by
    rw [hlp, days_since, pyInt]
    norm_num
  rw [check_player_activity_step.eq_def]
  simp only
  rw [if_neg (by simp), if_neg (by simp), if_neg (by rw [hcw]; decide)]
  rw [hcw, hlw]
  rw [show findWarnWeek 3 1 PLAYER_WARN_WEEKS = some 2 by decide]
  simp

/-- C2 (amended): per run the per-player step sends at most one warning, and
any warning sent is the lowest week threshold that is crossed and not yet
warned; a player silent 25 days and never warned gets exactly the week-1
message on the first run; the week-2 message follows on the very next run
(one hour later suffices) — the ladder advances one step per run while
thresholds remain crossed, it does not wait for a further week. -/
theorem C2_warning_ladder :
    (∀ (f pz : Bool) (ct : Option ℤ) (now : ℚ) (s : Bool) (k : String) (p : Player),
      ((check_player_activity_step f pz ct now s k p).2.1).length ≤ 1) ∧
    (∀ (f pz : Bool) (ct : Option ℤ) (now : ℚ) (s : Bool) (k : String) (p : Player)
       (w : ℕ), WarnMsg.warn k w ∈ (check_player_activity_step f pz ct now s k p).2.1 →
      w ∈ PLAYER_WARN_WEEKS ∧
      pyInt (days_since now p.last_post_time / 7) ≥ (w : ℤ) ∧
      p.last_warned_week < w ∧
      ∀ w' ∈ PLAYER_WARN_WEEKS, w' < w →
        ¬(pyInt (days_since now p.last_post_time / 7) ≥ (w' : ℤ) ∧
          p.last_warned_week < w')) ∧
    (∀ (now : ℚ) (key : String) (p : Player) (ct : ℤ),
      p.last_post_time = now - 25 * 86400 → p.last_warned_week = 0 →
      check_player_activity_step true false (some ct) now true key p
        = ({ p with last_warned_week := 1 }, [.warn key 1], false)) ∧
    (∀ (now : ℚ) (key : String) (p : Player) (ct : ℤ),
      p.last_post_time = now - (25 * 86400 + 3600) → p.last_warned_week = 1 →
      check_player_activity_step true false (some ct) now true key p
        = ({ p with last_warned_week := 2 }, [.warn key 2], false)) :=
  ⟨step_sends_le_one, step_warn_least, step_first_warn, step_second_warn⟩

/-- C2 counterexample: the claim says the week-2 message comes "only once a
further week has elapsed", but after the week-1 warning at 25 days of
silence, a second run just one hour later already sends the week-2 message. -/
theorem C2_counterexample :
    (check_player_activity_step true false (some 200) (25 * 86400) true "100:42"
        ⟨"42", "Alice", "", "", "Camp", "100", 0, 0⟩).2.1 = [.warn "100:42" 1] ∧
    (check_player_activity_step true false (some 200) (25 * 86400 + 3600) true "100:42"
        (check_player_activity_step true false (some 200) (25 * 86400) true "100:42"
          ⟨"42", "Alice", "", "", "Camp", "100", 0, 0⟩).1).2.1
      = [.warn "100:42" 2] := by
  have h1 := step_first_warn (25 * 86400) "100:42"
    ⟨"42", "Alice", "", "", "Camp", "100", 0, 0⟩ 200 (by norm_num) rfl
  refine ⟨by rw [h1], ?_⟩
  rw [h1]
  rw [step_second_warn (25 * 86400 + 3600) "100:42" _ 200 (by norm_num) rfl]

/-- C2 witness: the amended ladder behaviour on a concrete 25-days-silent
player, including the least-threshold property of the week-1 warning. -/
theorem C2_witness :
    check_player_activity_step true false (some 200) (25 * 86400) true "100:42"
        ⟨"42", "Alice", "", "", "Camp", "100", 0, 0⟩
      = (⟨"42", "Alice", "", "", "Camp", "100", 0, 1⟩, [.warn "100:42" 1], false) ∧
    check_player_activity_step true false (some 200) (25 * 86400 + 3600) true "100:42"
        ⟨"42", "Alice", "", "", "Camp", "100", 0, 1⟩
      = (⟨"42", "Alice", "", "", "Camp", "100", 0, 2⟩, [.warn "100:42" 2], false) ∧
    (1 ∈ PLAYER_WARN_WEEKS ∧
     pyInt (days_since (25 * 86400)
       (Player.last_post_time ⟨"42", "Alice", "", "", "Camp", "100", 0, 0⟩) / 7) ≥ 1 ∧
     Player.last_warned_week ⟨"42", "Alice", "", "", "Camp", "100", 0, 0⟩ < 1 ∧
     ∀ w' ∈ PLAYER_WARN_WEEKS, w' < 1 →
       ¬(pyInt (days_since (25 * 86400)
           (Player.last_post_time ⟨"42", "Alice", "", "", "Camp", "100", 0, 0⟩) / 7)
             ≥ (w' : ℤ) ∧
         Player.last_warned_week ⟨"42", "Alice", "", "", "Camp", "100", 0, 0⟩ < w')) :=
  ⟨C2_warning_ladder.2.2.1 (25 * 86400) "100:42"
      ⟨"42", "Alice", "", "", "Camp", "100", 0, 0⟩ 200 (by norm_num) rfl,
   C2_warning_ladder.2.2.2 (25 * 86400 + 3600) "100:42"
      ⟨"42", "Alice", "", "", "Camp", "100", 0, 1⟩ 200 (by norm_num) rfl,
   C2_warning_ladder.2.1 true false (some 200) (25 * 86400) true "100:42"
      ⟨"42", "Alice", "", "", "Camp", "100", 0, 0⟩ 1
      (by rw [step_first_warn (25 * 86400) "100:42"
          ⟨"42", "Alice", "", "", "Camp", "100", 0, 0⟩ 200 (by norm_num) rfl]
          ; simp)⟩

/-! ### Debounce discipline: `check_and_alert` vs `check_pace_drop` (C1) -/

theorem alert_step_failed_send (f pz : Bool) (ah now : ℚ) (pid : String)
    (topic : Option TopicState) (la : Option ℚ) :
    (check_and_alert_step f pz ah now false pid topic la).1 = la := by
  rw [check_and_alert_step.eq_def]
  by_cases hf : ¬ f = true
  · rw [if_pos hf]
  · rw [if_neg hf]
    by_cases hp : pz = true
    · rw [if_pos hp]
    · rw [if_neg hp]
      cases topic with
      | none => rfl
      | some ts =>
          simp only
          by_cases h1 : hours_since now ts.last_message_time < ah
          · rw [if_pos h1]
          · rw [if_neg h1]
            by_cases h2 : recentSend la now ah
            · rw [if_pos h2]
            · rw [if_neg h2, if_neg (by simp)]

theorem alert_step_success (f pz : Bool) (ah now : ℚ) (pid : String)
    (ts : TopicState) (la : Option ℚ)
    (hf : f = true) (hpz : pz = false)
    (helapsed : ¬ hours_since now ts.last_message_time < ah)
    (hrs : ¬ recentSend la now ah) :
    check_and_alert_step f pz ah now true pid (some ts) la
      = (some now, [.alert pid]) := by
  subst hf hpz
  rw [check_and_alert_step.eq_def]
  rw [if_neg (by simp), if_neg (by simp)]
  simp only
  rw [if_neg helapsed, if_neg hrs, if_pos trivial]

theorem alert_step_skip (f pz : Bool) (ah now' : ℚ) (s : Bool) (pid : String)
    (topic : Option TopicState) (prev : ℚ)
    (hlt : hours_since now' prev < ah) :
    check_and_alert_step f pz ah now' s pid topic (some prev) = (some prev, []) := by
  rw [check_and_alert_step.eq_def]
  by_cases hf : ¬ f = true
  · rw [if_pos hf]
  · rw [if_neg hf]
    by_cases hp : pz = true
    · rw [if_pos hp]
    · rw [if_neg hp]
      cases topic with
      | none => rfl
      | some ts =>
          simp only
          by_cases h1 : hours_since now' ts.last_message_time < ah
          · rw [if_pos h1]
          · rw [if_neg h1]
            rw [if_pos (show recentSend (some prev) now' ah from hlt)]

theorem pace_drop_always_advances (camps : List String) (f : String → Bool)
    (post : List (String × List (String × List ℚ))) (gm : String → List String)
    (last : Option ℚ) (now : ℚ) (h : interval_elapsed last 7 now) :
    (check_pace_drop camps f post gm last now).1 = some now := by
  rw [check_pace_drop, if_neg (not_not_intro h)]
theorem pace_posts_dedup :
    deduplicate_posts [259200, 345600, 432000, 518400, 604800]
      = [259200, 345600, 432000, 518400, 604800] :=
  deduplicate_posts_eq_of_chain
    (by norm_num [List.chain'_cons, SessionGap, POST_SESSION_MINUTES])

theorem pace_sessions_this :
    sessionsIn [259200, 345600, 432000, 518400, 604800] 691200 none = 0 := by
  rw [sessionsIn, pace_posts_dedup]
  norm_num [List.filter_cons, List.filter_nil, inWindow, decide_eq_true_eq]

theorem pace_sessions_last :
    sessionsIn [259200, 345600, 432000, 518400, 604800] 86400 (some 691200) = 5 := by
  rw [sessionsIn, pace_posts_dedup]
  norm_num [List.filter_cons, List.filter_nil, inWindow, decide_eq_true_eq]

theorem pace_split_eval :
    pace_split [("42", [259200, 345600, 432000, 518400, 604800])] [] 1296000
      = ⟨0, 0, 0, 5⟩ := by
  rw [pace_split]
  simp only [List.foldl_cons, List.foldl_nil]
  rw [show (1296000 : ℚ) - 7 * 86400 = 691200 by norm_num,
      show (1296000 : ℚ) - 14 * 86400 = 86400 by norm_num]
  rw [if_neg (by simp)]
  rw [pace_sessions_this, pace_sessions_last]

theorem pace_body_eval :
    check_pace_drop_body true [("42", [259200, 345600, 432000, 518400, 604800])]
      [] 1296000 "100" = [.paceDrop "100" 5 0] := by
  rw [check_pace_drop_body]
  rw [if_neg (by simp), if_neg (by simp)]
  rw [pace_split_eval]
  norm_num

/-- C1 (amended): `check_and_alert` honours the debouncing discipline — a
failed send leaves its `last_alerts` record unchanged, a confirmed send sets
it to `now`, and any later run within the interval sends nothing; but
`check_pace_drop` advances its weekly `last_pace_drop_check` record
unconditionally whenever its weekly gate opens, independent of whether any
send was attempted or succeeded. -/
theorem C1_debounce_discipline :
    (∀ (f pz : Bool) (ah now : ℚ) (pid : String) (topic : Option TopicState)
       (la : Option ℚ),
      (check_and_alert_step f pz ah now false pid topic la).1 = la) ∧
    (∀ (f pz : Bool) (ah now : ℚ) (pid : String) (ts : TopicState) (la : Option ℚ),
      f = true → pz = false → ¬ hours_since now ts.last_message_time < ah →
      ¬ recentSend la now ah →
      check_and_alert_step f pz ah now true pid (some ts) la
        = (some now, [.alert pid])) ∧
    (∀ (f pz : Bool) (ah now' : ℚ) (s : Bool) (pid : String)
       (topic : Option TopicState) (prev : ℚ), hours_since now' prev < ah →
      check_and_alert_step f pz ah now' s pid topic (some prev) = (some prev, [])) ∧
    (∀ (camps : List String) (f : String → Bool)
       (post : List (String × List (String × List ℚ))) (gm : String → List String)
       (last : Option ℚ) (now : ℚ), interval_elapsed last 7 now →
      (check_pace_drop camps f post gm last now).1 = some now) :=
  ⟨alert_step_failed_send, alert_step_success, alert_step_skip,
   pace_drop_always_advances⟩

/-- C1 counterexample: a campaign with 5 posts last week and none this week
triggers a pace-drop alert, and `check_pace_drop` records `now` as its new
last-checked time without ever consulting the send result (the source calls
`tg.send_message` and discards the return value) — so a failed send advances
the debounce clock, contrary to the claim "for every periodic check". -/
theorem C1_counterexample :
    check_pace_drop ["100"] (fun _ => true)
        [("100", [("42", [259200, 345600, 432000, 518400, 604800])])]
        (fun _ => []) none 1296000
      = (some 1296000, [.paceDrop "100" 5 0]) ∧
    (check_pace_drop ["100"] (fun _ => true)
        [("100", [("42", [259200, 345600, 432000, 518400, 604800])])]
        (fun _ => []) none 1296000).1 ≠ none := by
  have h : check_pace_drop ["100"] (fun _ => true)
      [("100", [("42", [259200, 345600, 432000, 518400, 604800])])]
      (fun _ => []) none 1296000
      = (some 1296000, [.paceDrop "100" 5 0]) := by
    rw [check_pace_drop, if_neg (by simp [interval_elapsed])]
    simp only [List.map_cons, List.map_nil]
    rw [show (alookup [("100", [("42", [(259200 : ℚ), 345600, 432000, 518400,
        604800])])] "100").getD [] = [("42", [(259200 : ℚ), 345600, 432000,
        518400, 604800])] from rfl]
    rw [pace_body_eval]
    simp
  exact ⟨h, by rw [h]; simp⟩

/-- C1 witness: the amended discipline on concrete runs — failed send leaves
the topic-alert debounce alone; a confirmed send stamps it; one hour later
the alert is suppressed; and the pace-drop record advances on its weekly
gate. -/
theorem C1_witness :
    (check_and_alert_step true false 4 100000 false "100"
        (some ⟨0, "Alice", "42", "Camp"⟩) none).1 = none ∧
    check_and_alert_step true false 4 100000 true "100"
        (some ⟨0, "Alice", "42", "Camp"⟩) none = (some 100000, [.alert "100"]) ∧
    check_and_alert_step true false 4 103600 true "100"
        (some ⟨0, "Alice", "42", "Camp"⟩) (some 100000) = (some 100000, []) ∧
    (check_pace_drop ["100"] (fun _ => true) [] (fun _ => []) none 1296000).1
      = some 1296000 :=
  ⟨C1_debounce_discipline.1 true false 4 100000 "100"
      (some ⟨0, "Alice", "42", "Camp"⟩) none,
   C1_debounce_discipline.2.1 true false 4 100000 "100" ⟨0, "Alice", "42", "Camp"⟩
      none rfl rfl (by norm_num [hours_since]) (by simp [recentSend]),
   C1_debounce_discipline.2.2.1 true false 4 103600 true "100"
      (some ⟨0, "Alice", "42", "Camp"⟩) 100000 (by norm_num [hours_since]),
   C1_debounce_discipline.2.2.2 ["100"] (fun _ => true) [] (fun _ => []) none
      1296000 (by simp [interval_elapsed])⟩

/-! ### `check_combat_turns` has no auto-notify (C4) -/

/-- C4: when every known player of the campaign has already acted, the
`check_combat_turns` loop body sends nothing and changes nothing — for every
`now` (however long the phase has run) and every send-result.  There is no
auto-notify path and no guarding flag in the state: the repository's own
test (`test_combat_auto_notify`, expecting an "All players have posted"
message and an `all_players_notified` flag) fails against this code. -/
theorem C4_no_auto_notify :
    ∀ (now : ℚ) (sendOk : Bool),
      check_combat_turns_body true
        [⟨"42", "Alice", "", "", "Camp", "100", 0, 0⟩,
         ⟨"43", "Bob", "", "", "Camp", "100", 0, 0⟩]
        (some 200) now sendOk ⟨true, "Camp", 1, "players", 0, ["42", "43"], none⟩
      = (⟨true, "Camp", 1, "players", 0, ["42", "43"], none⟩, []) := by
  intro now s
  rw [check_combat_turns_body.eq_def]
  rw [if_neg (by simp), if_neg (by simp), if_neg (by simp)]
  by_cases h : hours_since now (Combat.phase_started_at
      ⟨true, "Camp", 1, "players", 0, ["42", "43"], none⟩) < COMBAT_PING_HOURS
  · rw [if_pos h]
  · rw [if_neg h]
    rw [if_neg (by simp [recentSend])]
    simp only
    rw [if_pos (by decide)]

end PBP
